import Mathlib

/-!
Verification of the opendeck-ampgd6 plugin core (src/mappings.rs, src/inputs.rs,
src/device.rs): index mapping, raw-input decoding, the event-loop dedup cache,
error classification and teardown, device initialization, and the set-image
handler. Rust `usize`/`u8` values are modelled as `Nat`; Rust `Result` as
`Except`; a Rust panic (an `unwrap` of an `Err`, or unsigned-integer underflow,
which traps in debug builds) is modelled as `Option.none` at the function whose
evaluation would trap.
-/

namespace Ampgd6

/-! ## mappings.rs -/

def ROW_COUNT : Nat := 3

def COL_COUNT : Nat := 5

def KEY_COUNT : Nat := ROW_COUNT * COL_COUNT

def ENCODER_COUNT : Nat := 0

def FIFINE_VID : Nat := 0x3142

def AMPGD6_PID : Nat := 0x0007

/-- The closed enumeration of supported device models (mappings.rs). -/
inductive Kind
  | AMPGD6
deriving DecidableEq, Repr

/-- `Kind::from_vid_pid` from mappings.rs: nested match on vendor then product id. -/
def Kind.from_vid_pid (vid pid : Nat) : Option Kind :=
  if vid = FIFINE_VID then
    if pid = AMPGD6_PID then some Kind.AMPGD6 else none
  else none

/-! ## inputs.rs -/

/-- Error type of the external `mirajazz` crate as used by this repository:
`device.rs` matches exactly `ImageError(_) | BadData` (payloads are ignored by
that match); the remaining transport/IO variants are represented by `HidError`
and `NoData`. -/
inductive MirajazzError
  | ImageError
  | BadData
  | HidError
  | NoData
deriving DecidableEq, Repr

/-- `DeviceInput` of the external `mirajazz` crate as used by `inputs.rs`, which
only ever constructs the `ButtonStateChange` variant. -/
inductive DeviceInput
  | ButtonStateChange (states : List Bool)
deriving DecidableEq, Repr

/-- The fixed permutation table in `opendeck_to_device` (inputs.rs line 37). -/
def odTable : List Nat := [10, 11, 12, 13, 14, 5, 6, 7, 8, 9, 0, 1, 2, 3, 4]

/-- `opendeck_to_device` from inputs.rs: table lookup for `key < KEY_COUNT`,
identity pass-through otherwise. The Rust array index is in bounds exactly
because of the guard, so `getD` is never asked for its default. -/
def opendeck_to_device (key : Nat) : Nat :=
  if key < KEY_COUNT then odTable.getD key 0 else key

/-- `device_to_opendeck` from inputs.rs computes `key - 1` on `usize`. For
`key = 0` the unsigned subtraction underflows, which is a trap (panic) in debug
builds and a wrap to `usize::MAX` in release builds; either way no valid
logical index is produced, modelled as `none`. -/
def device_to_opendeck (key : Nat) : Option Nat :=
  if 1 ≤ key then some (key - 1) else none

/-- `read_button_states` from inputs.rs: `states[i + 1] != 0` for
`i in 0..KEY_COUNT`. Every call site passes a vector of length `KEY_COUNT + 2`,
so the Rust indexing (which would trap out of bounds) stays in bounds; `getD`
models it on that domain. -/
def read_button_states (states : List Nat) : List Bool :=
  (List.range KEY_COUNT).map fun i => decide (states.getD (i + 1) 0 ≠ 0)

/-- `read_button_press` from inputs.rs. `button_states` is
`[0x01]` followed by `KEY_COUNT + 1` zeros; input `0` is the sentinel for "no
buttons pressed" and returns before `device_to_opendeck` is reached, so the
`none` (trap) branch is unreachable from here. -/
def read_button_press (input state : Nat) : Option (Except MirajazzError DeviceInput) :=
  let bs : List Nat := 1 :: List.replicate (KEY_COUNT + 1) 0
  if input == 0 then
    some (Except.ok (DeviceInput.ButtonStateChange (read_button_states bs)))
  else
    match device_to_opendeck input with
    | none => none
    | some pressed =>
      let bs := if pressed < KEY_COUNT then bs.set (pressed + 1) state else bs
      some (Except.ok (DeviceInput.ButtonStateChange (read_button_states bs)))

/-- `process_input` from inputs.rs: the Rust match arm is the inclusive range
`0..=KEY_COUNT`, every other input is `BadData`. -/
def process_input (input state : Nat) : Option (Except MirajazzError DeviceInput) :=
  if input ≤ KEY_COUNT then read_button_press input state
  else some (Except.error MirajazzError.BadData)

/-! ## device.rs: event-loop deduplication (`device_events_task`) -/

/-- The dedup key type declared inside `device_events_task` (device.rs lines
167-174). A `DeviceStateUpdate` maps to its `EventKey` one to one, so batches
are modelled directly as lists of event keys. -/
inductive EventKey
  | ButtonDown (key : Nat)
  | ButtonUp (key : Nat)
  | EncoderDown (enc : Nat)
  | EncoderUp (enc : Nat)
  | EncoderTwist (enc : Nat) (delta : Int)
deriving DecidableEq, Repr

/-- `Duration::from_millis(500)`, in milliseconds (device.rs line 177). -/
def dedupWindow : Nat := 500

/-- The `retain` before each batch (device.rs line 195): keep entries with
`now.duration_since(time) < dedup_window`. `Instant` subtraction saturates at
zero, exactly as `Nat` subtraction does. -/
def purgeCache (now : Nat) (cache : List (EventKey × Nat)) : List (EventKey × Nat) :=
  cache.filter fun e => decide (now - e.2 < dedupWindow)

/-- One `for update in updates` iteration (device.rs lines 197-246): membership
test over the cache by key alone; a duplicate is skipped (cache untouched, no
forward), otherwise the key is inserted with the batch timestamp and the event
is forwarded. The state is the cache paired with the forwarded-events trace. -/
def stepUpdate (now : Nat) (st : List (EventKey × Nat) × List EventKey) (u : EventKey) :
    List (EventKey × Nat) × List EventKey :=
  if st.1.any fun e => decide (e.1 = u) then st
  else ((u, now) :: st.1, st.2 ++ [u])

/-- One loop iteration of `device_events_task` after a successful read: purge
the cache with the batch timestamp `now`, then process the batch in frame
order, returning the new cache and the events forwarded from this batch. -/
def processBatch (now : Nat) (cache : List (EventKey × Nat)) (batch : List EventKey) :
    List (EventKey × Nat) × List EventKey :=
  batch.foldl (stepUpdate now) (purgeCache now cache, [])

/-! ## device.rs: error classification and teardown (`handle_error`) -/

/-- The `matches!(err, MirajazzError::ImageError(_) | MirajazzError::BadData)`
classification at device.rs line 107. -/
def errorIsRecoverable (err : MirajazzError) : Bool :=
  match err with
  | MirajazzError.ImageError => true
  | MirajazzError.BadData => true
  | _ => false

/-- The shared state `handle_error` touches: the outbound event manager (is it
`Some`, and what its `deregister_device` call would return), the per-device
token map, and the device registry, together with call counters for the
externally visible effects on the device's id. -/
structure TeardownWorld where
  outboundPresent : Bool
  deregisterResult : Except MirajazzError Unit
  deregisterCalls : Nat
  tokenPresent : Bool
  cancelCalls : Nat
  removeCalls : Nat
  devicePresent : Bool
deriving Repr

/-- `handle_error` from device.rs lines 103-127: recoverable errors return
`true` with no effect; otherwise deregister with the host (the result is
`.unwrap()`ed — an `Err` panics, modelled as `none`, aborting the rest of the
teardown), cancel the token if one exists, remove the registry entry, and
return `false`. -/
def handle_error (err : MirajazzError) (w : TeardownWorld) : Option (Bool × TeardownWorld) :=
  if errorIsRecoverable err then some (true, w)
  else
    match
      (if w.outboundPresent then
        match w.deregisterResult with
        | Except.ok _ => some { w with deregisterCalls := w.deregisterCalls + 1 }
        | Except.error _ => none
      else some w) with
    | none => none
    | some w1 =>
      let w2 := if w1.tokenPresent then { w1 with cancelCalls := w1.cancelCalls + 1 } else w1
      some (false, { w2 with removeCalls := w2.removeCalls + 1, devicePresent := false })

/-- What the read-error arm of the event loop does with `handle_error`'s
answer (device.rs lines 184-190): `false` breaks the loop, `true` continues. -/
inductive LoopDirective
  | continueLoop
  | stopLoop
deriving DecidableEq, Repr

/-- The `Err` arm of `reader.read` in `device_events_task`: route the error
through `handle_error` and translate its boolean into the loop directive. -/
def readErrorStep (err : MirajazzError) (w : TeardownWorld) :
    Option (LoopDirective × TeardownWorld) :=
  match handle_error err w with
  | none => none
  | some (true, w1) => some (LoopDirective.continueLoop, w1)
  | some (false, w1) => some (LoopDirective.stopLoop, w1)

/-! ## device.rs: initialization (`device_task`) -/

/-- Outcomes of the four external calls the init closure of `device_task`
makes, in order: `connect`, `set_brightness`, `clear_all_button_images`,
`flush`. -/
structure InitResults where
  connectR : Except MirajazzError Unit
  brightnessR : Except MirajazzError Unit
  clearAllR : Except MirajazzError Unit
  flushR : Except MirajazzError Unit
deriving Repr

/-- The `async` init closure in `device_task` (device.rs lines 21-55):
`connect` is propagated with `?`; each of the three following steps is run in
an `if let Err` that only logs, so its result is discarded either way. -/
def deviceInitClosure (r : InitResults) : Except MirajazzError Unit :=
  match r.connectR with
  | Except.error e => Except.error e
  | Except.ok _ =>
    let _brightness := r.brightnessR
    let _clearAll := r.clearAllR
    let _flush := r.flushR
    Except.ok ()

/-- Whether `device_task` reaches the `register_device` call. -/
inductive TaskOutcome
  | registered
  | abortedBeforeRegistration
deriving DecidableEq, Repr

/-- The match on the init closure's result in `device_task` (device.rs lines
57-86): an `Err` runs `handle_error` and returns before registration; an `Ok`
falls through to `register_device`. -/
def device_task_registers (r : InitResults) : TaskOutcome :=
  match deviceInitClosure r with
  | Except.error _ => TaskOutcome.abortedBeforeRegistration
  | Except.ok _ => TaskOutcome.registered

/-! ## device.rs: outbound host calls in the event loop -/

/-- An awaited outbound host call followed by `.unwrap()` (device.rs lines
226-242 and 72-84): an `Err` result panics the device task, modelled as
`none`. -/
def unwrapHostCall (r : Except MirajazzError Unit) : Option Unit :=
  match r with
  | Except.ok _ => some ()
  | Except.error _ => none

/-- The results the host would return for each outbound event call. -/
structure HostResults where
  keyDownR : Except MirajazzError Unit
  keyUpR : Except MirajazzError Unit
  encoderDownR : Except MirajazzError Unit
  encoderUpR : Except MirajazzError Unit
  encoderChangeR : Except MirajazzError Unit
deriving Repr

/-- The forwarding match of `device_events_task` (device.rs lines 222-245):
when the outbound manager is present, dispatch on the update and `.unwrap()`
the host call's result. -/
def forwardToHost (outboundPresent : Bool) (r : HostResults) (u : EventKey) : Option Unit :=
  if outboundPresent then
    match u with
    | EventKey.ButtonDown _ => unwrapHostCall r.keyDownR
    | EventKey.ButtonUp _ => unwrapHostCall r.keyUpR
    | EventKey.EncoderDown _ => unwrapHostCall r.encoderDownR
    | EventKey.EncoderUp _ => unwrapHostCall r.encoderUpR
    | EventKey.EncoderTwist _ _ => unwrapHostCall r.encoderChangeR
  else some ()

/-! ## device.rs: `handle_set_image` -/

/-- The inbound set-image request: `{position: Option, image: Option}`. -/
structure SetImageEvent where
  position : Option Nat
  image : Option String
deriving Repr

/-- What `DataUrl::process` hands back when it succeeds: the MIME subtype and
the result of `decode_to_vec` (`none` when decoding fails, which the code
`.unwrap()`s). -/
structure ParsedUrl where
  subtype : String
  decodeResult : Option (List Nat)
deriving Repr

/-- Transport calls `handle_set_image` can make on the device. -/
inductive TransportOp
  | setButtonImage (nativeKey : Nat)
  | clearButtonImage (nativeKey : Nat)
  | clearAllButtonImages
  | flush
deriving DecidableEq, Repr

/-- Outcomes of the external collaborators `handle_set_image` consults:
`DataUrl::process` (`none` = parse failure, which the code `.unwrap()`s),
`load_from_memory_with_format` (its error converts into
`MirajazzError::ImageError` via `?`), and the transport calls. -/
structure ImageCollabs where
  parseResult : Option ParsedUrl
  loadImageResult : Except MirajazzError Unit
  setButtonImageResult : Except MirajazzError Unit
  clearButtonImageResult : Except MirajazzError Unit
  clearAllResult : Except MirajazzError Unit
  flushResult : Except MirajazzError Unit
deriving Repr

/-- `handle_set_image` from device.rs lines 253-296, with the device's vid/pid
as arguments (used by the `Kind::from_vid_pid(..).unwrap()`). Returns `none`
for a panic (`unwrap` of a failed parse, decode, or kind lookup), otherwise
the `Result` together with the trace of transport calls made. -/
def handle_set_image (vid pid : Nat) (evt : SetImageEvent) (c : ImageCollabs) :
    Option (Except MirajazzError Unit × List TransportOp) :=
  match evt.position, evt.image with
  | some position, some _ =>
    match c.parseResult with
    | none => none
    | some url =>
      match url.decodeResult with
      | none => none
      | some _body =>
        if url.subtype ≠ "jpeg" then some (Except.ok (), [])
        else
          match c.loadImageResult with
          | Except.error e => some (Except.error e, [])
          | Except.ok _ =>
            match Kind.from_vid_pid vid pid with
            | none => none
            | some _kind =>
              match c.setButtonImageResult with
              | Except.error e =>
                some (Except.error e, [TransportOp.setButtonImage (opendeck_to_device position)])
              | Except.ok _ =>
                match c.flushResult with
                | Except.error e =>
                  some (Except.error e,
                    [TransportOp.setButtonImage (opendeck_to_device position), TransportOp.flush])
                | Except.ok _ =>
                  some (Except.ok (),
                    [TransportOp.setButtonImage (opendeck_to_device position), TransportOp.flush])
  | some position, none =>
    match c.clearButtonImageResult with
    | Except.error e =>
      some (Except.error e, [TransportOp.clearButtonImage (opendeck_to_device position)])
    | Except.ok _ =>
      match c.flushResult with
      | Except.error e =>
        some (Except.error e,
          [TransportOp.clearButtonImage (opendeck_to_device position), TransportOp.flush])
      | Except.ok _ =>
        some (Except.ok (),
          [TransportOp.clearButtonImage (opendeck_to_device position), TransportOp.flush])
  | none, none =>
    match c.clearAllResult with
    | Except.error e => some (Except.error e, [TransportOp.clearAllButtonImages])
    | Except.ok _ =>
      match c.flushResult with
      | Except.error e =>
        some (Except.error e, [TransportOp.clearAllButtonImages, TransportOp.flush])
      | Except.ok _ =>
        some (Except.ok (), [TransportOp.clearAllButtonImages, TransportOp.flush])
  | none, some _ => some (Except.ok (), [])

/-! ## Theorems -/

/-- Helper for claim C2: processing a batch only ever leaves cache entries
whose age relative to the batch timestamp is below the dedup window. -/
lemma foldl_cache_ages (now : Nat) :
    ∀ (batch : List EventKey) (st : List (EventKey × Nat) × List EventKey),
      (∀ e ∈ st.1, now - e.2 < dedupWindow) →
      ∀ e ∈ (batch.foldl (stepUpdate now) st).1, now - e.2 < dedupWindow := by
  intro batch
  induction batch with
  | nil => intro st h e he; exact h e he
  | cons u rest ih =>
    intro st h e he
    refine ih (stepUpdate now st u) ?_ e he
    intro e' he'
    unfold stepUpdate at he'
    by_cases hc : (st.1.any fun e => decide (e.1 = u)) = true
    · simp only [hc, if_true] at he'
      exact h e' he'
    · simp only [hc, if_false] at he'
      rcases List.mem_cons.mp he' with rfl | hmem
      · simp [dedupWindow]
      · exact h e' hmem

/-- Claim C1 (counterexample): `device_to_opendeck` applied to native index 0
does not yield a value — the `usize` subtraction `key - 1` underflows, a trap
in debug builds — refuting totality on `[0, KEY_COUNT)`. -/
theorem c1_counterexample_zero_underflows : device_to_opendeck 0 = none := rfl

/-- Claim C1 (amended): `opendeck_to_device` is total on the logical range
`[0, KEY_COUNT)` with values in `[0, KEY_COUNT)`; `device_to_opendeck` is
total on the device's actual 1-based native event range `[1, KEY_COUNT]`,
where it returns `key - 1`; native index 0 (the no-buttons sentinel, which
`read_button_press` intercepts before this function) is outside its domain. -/
theorem c1_mappers_total_on_actual_domains :
    ((List.range KEY_COUNT).all fun k => device_to_opendeck (k + 1) == some k) = true ∧
    ((List.range KEY_COUNT).all fun k => decide (opendeck_to_device k < KEY_COUNT)) = true := by
  decide

/-- Claim C2: event-loop deduplication. With batch timestamps `t1` then `t2`
and a fresh cache: a single event is forwarded; an identical key in a second
batch is suppressed when the cached entry is younger than the 500ms window and
forwarded when the gap is at least the window (the entry having been purged);
an identical key within one batch is forwarded exactly once; a suppressed
duplicate leaves the cache (hence the cached timestamp) unchanged; purging
before a batch keeps exactly the entries younger than the window, and every
entry after a batch is younger than the window. -/
theorem c2_dedup (k : EventKey) (t1 t2 : Nat) :
    (processBatch t1 [] [k]).2 = [k] ∧
    (t2 - t1 < dedupWindow →
      (processBatch t2 (processBatch t1 [] [k]).1 [k]).2 = []) ∧
    (dedupWindow ≤ t2 - t1 →
      (processBatch t2 (processBatch t1 [] [k]).1 [k]).2 = [k]) ∧
    (processBatch t1 [] [k, k]).2 = [k] ∧
    (∀ cache out, (cache.any fun e => decide (e.1 = k)) = true →
      stepUpdate t2 (cache, out) k = (cache, out)) ∧
    (∀ cache e, e ∈ purgeCache t2 cache ↔ (e ∈ cache ∧ t2 - e.2 < dedupWindow)) ∧
    (∀ cache batch, ∀ e ∈ (processBatch t2 cache batch).1, t2 - e.2 < dedupWindow) := by
  refine ⟨rfl, ?_, ?_, ?_, ?_, ?_, ?_⟩
  · intro hlt
    have h1 : (processBatch t1 [] [k]).1 = [(k, t1)] := rfl
    rw [h1]
    simp [processBatch, purgeCache, stepUpdate, hlt]
  · intro hge
    have h1 : (processBatch t1 [] [k]).1 = [(k, t1)] := rfl
    rw [h1]
    have hnot : ¬ (t2 - t1 < dedupWindow) := Nat.not_lt.mpr hge
    simp [processBatch, purgeCache, stepUpdate, hnot]
  · simp [processBatch, purgeCache, stepUpdate]
  · intro cache out hmem
    simp [stepUpdate, hmem]
  · intro cache e
    simp [purgeCache, List.mem_filter]
  · intro cache batch e he
    refine foldl_cache_ages t2 batch (purgeCache t2 cache, []) ?_ e he
    intro e' he'
    have hf := List.mem_filter.mp he'
    simpa using hf.2

/-- Claim C2 (witness): a ButtonDown 2 in a batch at time 100 is suppressed
when the same key was cached at time 0, a 100ms gap. -/
theorem c2_dedup_witness :
    (processBatch 100 (processBatch 0 [] [EventKey.ButtonDown 2]).1
      [EventKey.ButtonDown 2]).2 = [] :=
  (c2_dedup (EventKey.ButtonDown 2) 0 100).2.1 (by decide)

/-- Claim C3 (counterexample): a fatal error whose host `deregister_device`
call fails does not complete the teardown — the `.unwrap()` panics before the
token is cancelled or the registry entry is removed, and `false` is never
returned. -/
theorem c3_counterexample_deregister_unwrap :
    handle_error MirajazzError.HidError
      ⟨true, Except.error MirajazzError.HidError, 0, true, 0, 0, true⟩ = none := rfl

/-- Claim C3 (amended): `handle_error` returns `true` (loop continues) exactly
for `ImageError` and `BadData`, with no side effect; for every other error —
provided the outbound manager is present, its `deregister_device` call
succeeds, and a token exists — it performs the full teardown: exactly one
deregister call, exactly one token cancellation when a token exists (none
otherwise), exactly one registry removal, and returns `false` (loop stops). -/
theorem c3_handle_error_teardown (err : MirajazzError) (w : TeardownWorld) :
    (errorIsRecoverable err = true ↔
      (err = MirajazzError.ImageError ∨ err = MirajazzError.BadData)) ∧
    (errorIsRecoverable err = true → handle_error err w = some (true, w)) ∧
    (errorIsRecoverable err = false → w.outboundPresent = true →
      w.deregisterResult = Except.ok () →
      handle_error err w = some (false,
        { w with deregisterCalls := w.deregisterCalls + 1,
                 cancelCalls := w.cancelCalls + (if w.tokenPresent then 1 else 0),
                 removeCalls := w.removeCalls + 1,
                 devicePresent := false })) := by
  refine ⟨?_, ?_, ?_⟩
  · cases err <;> simp [errorIsRecoverable]
  · intro h
    simp [handle_error, h]
  · intro h hob hd
    obtain ⟨ob, dr, dc, tp, cc, rc, dp⟩ := w
    simp only at hob hd
    subst hob hd
    cases tp <;> simp [handle_error, h]

/-- Claim C3 (witness): a transport error with the host deregister succeeding
tears down completely — one deregister, one cancel, one removal — and stops
the loop. -/
theorem c3_handle_error_teardown_witness :
    handle_error MirajazzError.HidError ⟨true, Except.ok (), 0, true, 0, 0, true⟩ =
      some (false, ⟨true, Except.ok (), 1, true, 1, 1, false⟩) :=
  (c3_handle_error_teardown MirajazzError.HidError
    ⟨true, Except.ok (), 0, true, 0, 0, true⟩).2.2 rfl rfl rfl

/-- Claim C4: initialization tolerates partial failure — whenever `connect`
succeeds the task reaches `register_device` regardless of the outcomes of
`set_brightness`, `clear_all_button_images` and `flush`; whenever `connect`
fails the task ends before registration. -/
theorem c4_init_partial_failure_tolerated (r : InitResults) :
    (r.connectR = Except.ok () → device_task_registers r = TaskOutcome.registered) ∧
    (∀ e, r.connectR = Except.error e →
      device_task_registers r = TaskOutcome.abortedBeforeRegistration) := by
  constructor
  · intro h
    simp [device_task_registers, deviceInitClosure, h]
  · intro e h
    simp [device_task_registers, deviceInitClosure, h]

/-- Claim C4 (witness): connect succeeds while brightness, clear-all and flush
all fail, and the task still reaches registration. -/
theorem c4_init_witness :
    device_task_registers
      ⟨Except.ok (), Except.error MirajazzError.HidError,
       Except.error MirajazzError.HidError, Except.error MirajazzError.HidError⟩ =
      TaskOutcome.registered :=
  (c4_init_partial_failure_tolerated
    ⟨Except.ok (), Except.error MirajazzError.HidError,
     Except.error MirajazzError.HidError, Except.error MirajazzError.HidError⟩).1 rfl

/-- Claim C5 (counterexample): raw input index 15 is not rejected — the Rust
match arm is the inclusive range `0..=KEY_COUNT`, so `process_input 15`
produces a button-state result (logical key 14 pressed), not `BadData`. -/
theorem c5_counterexample_boundary_accepted :
    process_input 15 1 = some (Except.ok (DeviceInput.ButtonStateChange
      [false, false, false, false, false, false, false, false, false, false,
       false, false, false, false, true])) ∧
    process_input 15 1 ≠ some (Except.error MirajazzError.BadData) :=
  ⟨rfl, fun h => Except.noConfusion (Option.some.inj h)⟩

/-- Claim C5 (amended): every raw input index strictly greater than
`KEY_COUNT = 15` (the device's 1-based indexes run 1..=15) is rejected with
`BadData`, and `BadData` is classified recoverable so the event loop
continues, with no teardown effect. -/
theorem c5_out_of_range_is_baddata :
    (∀ input state : Nat, KEY_COUNT < input →
      process_input input state = some (Except.error MirajazzError.BadData)) ∧
    (∀ w : TeardownWorld,
      readErrorStep MirajazzError.BadData w = some (LoopDirective.continueLoop, w)) := by
  constructor
  · intro input state h
    simp [process_input, Nat.not_le.mpr h]
  · intro w
    rfl

/-- Claim C5 (witness): input 16 is rejected with `BadData` and the loop
continues. -/
theorem c5_out_of_range_witness :
    process_input 16 0 = some (Except.error MirajazzError.BadData) ∧
    readErrorStep MirajazzError.BadData ⟨true, Except.ok (), 0, true, 0, 0, true⟩ =
      some (LoopDirective.continueLoop, ⟨true, Except.ok (), 0, true, 0, 0, true⟩) :=
  ⟨c5_out_of_range_is_baddata.1 16 0 (by decide),
   c5_out_of_range_is_baddata.2 ⟨true, Except.ok (), 0, true, 0, 0, true⟩⟩

/-- Claim C6: for every state value, raw input 0 is the "no buttons pressed"
sentinel — `process_input` returns a `ButtonStateChange` with all `KEY_COUNT`
key states false, never reporting logical key 0 as pressed. -/
theorem c6_input_zero_sentinel (state : Nat) :
    process_input 0 state =
      some (Except.ok (DeviceInput.ButtonStateChange (List.replicate KEY_COUNT false))) := rfl

/-- Claim C7: contrary to the requirement, a failing outbound host call
crashes the device task — the event loop `.unwrap()`s the call, so a
`key_down` failure while forwarding a ButtonDown panics (modelled `none`). -/
theorem c7_outbound_failure_panics :
    forwardToHost true
      ⟨Except.error MirajazzError.BadData, Except.ok (), Except.ok (),
       Except.ok (), Except.ok ()⟩ (EventKey.ButtonDown 0) = none := rfl

/-- Claim C8 (counterexample): a set-image request whose data URI cannot be
parsed panics (`DataUrl::process(..).unwrap()`, modelled `none`) — no
`MalformedEnvelope` (or any) error is returned to the caller. -/
theorem c8_counterexample_parse_panics :
    handle_set_image FIFINE_VID AMPGD6_PID
      ⟨some 0, some "this is no data url"⟩
      ⟨none, Except.ok (), Except.ok (), Except.ok (), Except.ok (), Except.ok ()⟩ =
      none := rfl

/-- Claim C8 (amended): for every set-image request with position and image
present whose image envelope cannot be parsed, `handle_set_image` panics via
`unwrap` rather than returning an error value — the error type has no
malformed-envelope variant and the session is crashed, not preserved. -/
theorem c8_unparseable_envelope_panics (vid pid p : Nat) (s : String) (c : ImageCollabs)
    (hparse : c.parseResult = none) :
    handle_set_image vid pid ⟨some p, some s⟩ c = none := by
  simp [handle_set_image, hparse]

/-- Claim C8 (witness): a concrete unparseable envelope panics the handler. -/
theorem c8_unparseable_envelope_witness :
    handle_set_image FIFINE_VID AMPGD6_PID ⟨some 3, some "pct"⟩
      ⟨none, Except.ok (), Except.ok (), Except.ok (), Except.ok (), Except.ok ()⟩ =
      none :=
  c8_unparseable_envelope_panics FIFINE_VID AMPGD6_PID 3 "pct"
    ⟨none, Except.ok (), Except.ok (), Except.ok (), Except.ok (), Except.ok ()⟩ rfl

/-- Claim C9: a set-image request with `position = none` and `image = some` is
a no-op — `handle_set_image` returns `Ok` and makes no transport call, for
every device and every collaborator outcome. -/
theorem c9_position_none_image_some_noop (vid pid : Nat) (img : String) (c : ImageCollabs) :
    handle_set_image vid pid ⟨none, some img⟩ c = some (Except.ok (), []) := rfl

/-- Claim C10: `opendeck_to_device` restricted to `[0, KEY_COUNT)` is an
involution — applying it twice is the identity — and it swaps the top row
`(0..4)` with the bottom row `(10..14)` while fixing the middle row `(5..9)`. -/
theorem c10_opendeck_to_device_involution :
    ((List.range KEY_COUNT).all fun k =>
      opendeck_to_device (opendeck_to_device k) == k) = true ∧
    ((List.range COL_COUNT).all fun c =>
      (opendeck_to_device c == c + 2 * COL_COUNT) &&
      (opendeck_to_device (c + 2 * COL_COUNT) == c) &&
      (opendeck_to_device (c + COL_COUNT) == c + COL_COUNT)) = true := by
  decide

end Ampgd6
